import Mathlib

/-!
Shallow embedding of `src/awx/ui_next/src/components/Search/Search.jsx`:
a presentational search-bar component combining a column-selector dropdown,
a text input and a submit control.  The component's props, its local state,
its four event handlers and the shape of its rendered output are translated
below; theorems settle the specification's claims about them.
-/

namespace AwxSearch

/-- One entry of the `columns` prop: an object with a `key` (the API field
name), a display `name`, and an `isSearchable` flag. -/
structure Column where
  key : String
  name : String
  isSearchable : Bool
  deriving DecidableEq

/-- The props of the `Search` component: the required `columns` array, the
optional `onSearch` callback (`null`, i.e. `none`, when the parent supplies
none), and the optional `sortedColumnKey`. -/
structure Props where
  columns : List Column
  onSearch : Option (String → String → Unit)
  sortedColumnKey : String

/-- From `Search.defaultProps`: `onSearch: null`. -/
def defaultOnSearch : Option (String → String → Unit) := none

/-- From `Search.defaultProps`: `sortedColumnKey: 'name'`. -/
def defaultSortedColumnKey : String := "name"

/-- The component state created in the constructor: exactly the three fields
`isSearchDropdownOpen`, `searchKey` and `searchValue`. -/
structure SearchState where
  isSearchDropdownOpen : Bool
  searchKey : String
  searchValue : String
  deriving DecidableEq

/-- The constructor's `this.state` assignment: the dropdown starts closed,
`searchKey` starts at the `sortedColumnKey` prop, and the text is empty. -/
def initState (p : Props) : SearchState :=
  { isSearchDropdownOpen := false
    searchKey := p.sortedColumnKey
    searchValue := "" }

/-- Handler `handleDropdownToggle(isSearchDropdownOpen)`: stores the given
open/closed flag. -/
def handleDropdownToggle (isOpen : Bool) (st : SearchState) : SearchState :=
  { st with isSearchDropdownOpen := isOpen }

/-- Handler `handleDropdownSelect` with the clicked item's text
(`target.innerText`): looks up the first column whose `name` equals the text
with `columns.find`, then destructures its `key`.  When no column matches,
`find` yields `undefined` and the destructuring throws, modelled as `none`;
otherwise the state's `searchKey` becomes that column's key and the dropdown
closes. -/
def handleDropdownSelect (p : Props) (innerText : String) (st : SearchState) :
    Option SearchState :=
  match p.columns.find? (fun c => c.name == innerText) with
  | none => none
  | some c => some { st with isSearchDropdownOpen := false, searchKey := c.key }

/-- Handler `handleSearch`: invokes `onSearch` once with the derived key
(state `searchKey` with the suffix appended) and the current `searchValue`,
then clears `searchValue`.  The returned list records the callback
invocations made.  When `onSearch` is `null` the call throws, modelled as
`none`. -/
def handleSearch (p : Props) (st : SearchState) :
    Option (List (String × String) × SearchState) :=
  match p.onSearch with
  | none => none
  | some _ =>
      some ([(st.searchKey ++ "__icontains", st.searchValue)],
            { st with searchValue := "" })

/-- Handler `handleSearchInputChange(searchValue)`: stores the typed text. -/
def handleSearchInputChange (v : String) (st : SearchState) : SearchState :=
  { st with searchValue := v }

/-- The observable shape of the rendered search-key selector: either an
interactive dropdown (with its open flag, the toggle label and the item
texts) or the static `NoOptionDropdown` label. -/
inductive RenderOutput where
  | dropdown (isOpen : Bool) (toggleLabel : String) (items : List String)
  | noOptionDropdown (label : String)
  deriving DecidableEq

/-- The `render` method's selector part: `searchColumnName` is destructured
from `columns.find(c => c.key === searchKey)` (throwing, i.e. `none`, when no
column matches); `searchDropdownItems` is the searchable columns other than
the current one, rendered in array order; a dropdown is produced when that
list is nonempty, the static label otherwise. -/
def render (p : Props) (st : SearchState) : Option RenderOutput :=
  match p.columns.find? (fun c => c.key == st.searchKey) with
  | none => none
  | some c =>
      let items :=
        (p.columns.filter
            (fun col => col.isSearchable && col.key != st.searchKey)).map
          (fun col => col.name)
      if items.length > 0 then
        some (.dropdown st.isSearchDropdownOpen c.name items)
      else
        some (.noOptionDropdown c.name)

/-- The component's user-visible operations after construction. -/
inductive Op where
  | dropdownToggle (isOpen : Bool)
  | dropdownSelect (innerText : String)
  | searchInputChange (value : String)
  | searchSubmit

/-- One operation applied to a state; `none` when the handler throws. -/
def step (p : Props) (st : SearchState) : Op → Option SearchState
  | .dropdownToggle b => some (handleDropdownToggle b st)
  | .dropdownSelect t => handleDropdownSelect p t st
  | .searchInputChange v => some (handleSearchInputChange v st)
  | .searchSubmit => (handleSearch p st).map Prod.snd

/-- A sequence of operations applied in order; `none` if any step throws. -/
def runOps (p : Props) (st : SearchState) : List Op → Option SearchState
  | [] => some st
  | op :: ops =>
      match step p st op with
      | none => none
      | some st2 => runOps p st2 ops

/-- The dropdown item texts as the specification describes them: the columns
whose `isSearchable` flag is true and whose key differs from the current
search key, in the order of the `columns` prop, shown by name. -/
def claimedDropdownItems (columns : List Column) (searchKey : String) :
    List String :=
  (columns.filter
      (fun c => decide (c.isSearchable = true ∧ c.key ≠ searchKey))).map
    (fun c => c.name)

/-! Concrete fixtures used by witness and counterexample theorems. -/

/-- A concrete parent-supplied callback. -/
def someCallback : String → String → Unit := fun _ _ => ()

/-- A concrete columns list with two searchable columns. -/
def wColumns : List Column :=
  [⟨"name", "Name", true⟩, ⟨"description", "Description", true⟩]

/-- Concrete props with a supplied callback. -/
def wProps : Props := ⟨wColumns, some someCallback, "name"⟩

/-- A concrete state with some typed text. -/
def wState : SearchState := ⟨false, "name", "foo"⟩

/-- Concrete props whose `columns` contain no column with the default
`sortedColumnKey` of `'name'`. -/
def cexProps : Props := ⟨[⟨"id", "ID", true⟩], defaultOnSearch, defaultSortedColumnKey⟩

/-- Invariant preservation: every successful step keeps `searchKey` equal
to the key of some supplied column. -/
theorem step_preserves_searchKey_mem (p : Props) (st st2 : SearchState)
    (op : Op) (hinv : ∃ c ∈ p.columns, c.key = st.searchKey)
    (h : step p st op = some st2) :
    ∃ c ∈ p.columns, c.key = st2.searchKey := by
  cases op with
  | dropdownToggle b =>
      simp only [step, Option.some.injEq] at h
      subst h
      exact hinv
  | dropdownSelect t =>
      simp only [step, handleDropdownSelect] at h
      cases hf : p.columns.find? (fun c => c.name == t) with
      | none => rw [hf] at h; exact absurd h (by simp)
      | some c =>
          rw [hf] at h
          simp only [Option.some.injEq] at h
          subst h
          exact ⟨c, List.mem_of_find?_eq_some hf, rfl⟩
  | searchInputChange v =>
      simp only [step, Option.some.injEq] at h
      subst h
      exact hinv
  | searchSubmit =>
      simp only [step, handleSearch] at h
      cases hos : p.onSearch with
      | none => rw [hos] at h; exact absurd h (by simp)
      | some f =>
          rw [hos] at h
          simp only [Option.map_some', Option.some.injEq] at h
          subst h
          exact hinv

/-- Invariant preservation lifted to sequences of operations. -/
theorem runOps_preserves_searchKey_mem (p : Props) (ops : List Op) :
    ∀ st st2 : SearchState, (∃ c ∈ p.columns, c.key = st.searchKey) →
      runOps p st ops = some st2 → ∃ c ∈ p.columns, c.key = st2.searchKey := by
  induction ops with
  | nil =>
      intro st st2 hinv h
      simp only [runOps, Option.some.injEq] at h
      subst h
      exact hinv
  | cons op ops ih =>
      intro st st2 hinv h
      simp only [runOps] at h
      cases hs : step p st op with
      | none => rw [hs] at h; exact absurd h (by simp)
      | some st1 =>
          rw [hs] at h
          exact ih st1 st2 (step_preserves_searchKey_mem p st st1 op hinv hs) h

/-- C1: submitting the form with a supplied callback invokes `onSearch`
exactly once, with first argument the selected column key followed by the
suffix and second argument the typed text unchanged. -/
theorem handleSearch_calls_onSearch_once (cols : List Column)
    (f : String → String → Unit) (sck : String) (b : Bool) (k v : String) :
    handleSearch ⟨cols, some f, sck⟩ ⟨b, k, v⟩ =
      some ([(k ++ "__icontains", v)], ⟨b, k, ""⟩) := rfl

/-- C2 counterexample: with the default `sortedColumnKey` of `'name'` and a
columns prop containing no column keyed `'name'`, the component is
constructed (the empty operation sequence succeeds) in a state whose
`searchKey` matches no supplied column. -/
theorem searchKey_mem_counterexample :
    runOps cexProps (initState cexProps) [] = some (initState cexProps) ∧
      ¬ ∃ c ∈ cexProps.columns, c.key = (initState cexProps).searchKey := by
  constructor
  · rfl
  · decide

/-- C2 (amended): provided the initial `sortedColumnKey` prop is the key of
some supplied column, every state reachable by any sequence of operations
from construction has a `searchKey` equal to the key of some supplied
column. -/
theorem searchKey_references_supplied_column (p : Props) (ops : List Op)
    (st : SearchState) (hinit : ∃ c ∈ p.columns, c.key = p.sortedColumnKey)
    (hrun : runOps p (initState p) ops = some st) :
    ∃ c ∈ p.columns, c.key = st.searchKey :=
  runOps_preserves_searchKey_mem p ops (initState p) st hinit hrun

/-- Witness for C2 (amended) at concrete props and a concrete run. -/
theorem searchKey_references_supplied_column_witness :
    (∃ c ∈ wProps.columns, c.key = wProps.sortedColumnKey) ∧
      runOps wProps (initState wProps) [Op.searchInputChange "x", Op.searchSubmit]
        = some ⟨false, "name", ""⟩ ∧
      ∃ c ∈ wProps.columns, c.key = (⟨false, "name", ""⟩ : SearchState).searchKey :=
  ⟨⟨⟨"name", "Name", true⟩, by simp [wProps, wColumns], rfl⟩, rfl,
    searchKey_references_supplied_column wProps
      [Op.searchInputChange "x", Op.searchSubmit] ⟨false, "name", ""⟩
      ⟨⟨"name", "Name", true⟩, by simp [wProps, wColumns], rfl⟩ rfl⟩

/-- C3: when the clicked item text is the name of some supplied column,
selecting it sets `searchKey` to the key of the first column with that name,
closes the dropdown, and leaves the typed text unchanged. -/
theorem handleDropdownSelect_tracks_selection (p : Props) (t : String)
    (st : SearchState) (c : Column)
    (h : p.columns.find? (fun col => col.name == t) = some c) :
    c.name = t ∧
      handleDropdownSelect p t st =
        some { st with isSearchDropdownOpen := false, searchKey := c.key } := by
  refine ⟨?_, ?_⟩
  · have := List.find?_some h
    simpa using this
  · simp [handleDropdownSelect, h]

/-- Witness for C3 at a concrete columns list and item text. -/
theorem handleDropdownSelect_tracks_selection_witness :
    wProps.columns.find? (fun col => col.name == "Description")
        = some ⟨"description", "Description", true⟩ ∧
      (⟨"description", "Description", true⟩ : Column).name = "Description" ∧
      handleDropdownSelect wProps "Description" ⟨true, "name", "foo"⟩
        = some ⟨false, "description", "foo"⟩ := by
  refine ⟨by decide, ?_⟩
  have h := handleDropdownSelect_tracks_selection wProps "Description"
    ⟨true, "name", "foo"⟩ ⟨"description", "Description", true⟩ (by decide)
  exact ⟨h.1, h.2⟩

/-- C4: the submit handler is well-defined only when a callback was
supplied; with the component's own default (`onSearch = null`) the
invocation throws, while with any supplied callback it succeeds. -/
theorem handleSearch_requires_callback (cols : List Column) (sck : String)
    (st : SearchState) :
    handleSearch ⟨cols, defaultOnSearch, sck⟩ st = none ∧
      ∀ f : String → String → Unit,
        (handleSearch ⟨cols, some f, sck⟩ st).isSome = true :=
  ⟨rfl, fun _ => rfl⟩

/-- C5: a successful submit resets `searchValue` to the empty string and
leaves `searchKey` and `isSearchDropdownOpen` unchanged. -/
theorem handleSearch_resets_only_value (p : Props) (st : SearchState)
    (calls : List (String × String)) (st2 : SearchState)
    (h : handleSearch p st = some (calls, st2)) :
    st2.searchValue = "" ∧ st2.searchKey = st.searchKey ∧
      st2.isSearchDropdownOpen = st.isSearchDropdownOpen := by
  simp only [handleSearch] at h
  cases hos : p.onSearch with
  | none => rw [hos] at h; exact absurd h (by simp)
  | some f =>
      rw [hos] at h
      simp only [Option.some.injEq, Prod.mk.injEq] at h
      rw [← h.2]
      exact ⟨rfl, rfl, rfl⟩

/-- Witness for C5 at a concrete submit. -/
theorem handleSearch_resets_only_value_witness :
    handleSearch wProps wState
        = some ([("name__icontains", "foo")], ⟨false, "name", ""⟩) ∧
      ((⟨false, "name", ""⟩ : SearchState).searchValue = "" ∧
        (⟨false, "name", ""⟩ : SearchState).searchKey = wState.searchKey ∧
        (⟨false, "name", ""⟩ : SearchState).isSearchDropdownOpen
          = wState.isSearchDropdownOpen) :=
  ⟨rfl, handleSearch_resets_only_value wProps wState
    [("name__icontains", "foo")] ⟨false, "name", ""⟩ rfl⟩

/-- C6: when some column carries the current search key, the rendered
dropdown item list is exactly the searchable columns other than the current
one, shown by name in prop order; when that list is empty a static label
with the current column's name is rendered instead of a dropdown. -/
theorem render_dropdown_items_exact (p : Props) (st : SearchState)
    (c : Column)
    (h : p.columns.find? (fun col => col.key == st.searchKey) = some c) :
    (claimedDropdownItems p.columns st.searchKey ≠ [] →
        render p st = some (.dropdown st.isSearchDropdownOpen c.name
          (claimedDropdownItems p.columns st.searchKey))) ∧
      (claimedDropdownItems p.columns st.searchKey = [] →
        render p st = some (.noOptionDropdown c.name)) := by
  have hpred : (fun col : Column => col.isSearchable && col.key != st.searchKey)
      = fun col => decide (col.isSearchable = true ∧ col.key ≠ st.searchKey) := by
    funext col
    cases h1 : col.isSearchable <;>
      by_cases h2 : col.key = st.searchKey <;> simp [h1, h2]
  have hitems :
      ((p.columns.filter
          (fun col => col.isSearchable && col.key != st.searchKey)).map
        (fun col => col.name)) = claimedDropdownItems p.columns st.searchKey := by
    rw [claimedDropdownItems, hpred]
  constructor
  · intro hne
    have hpos : 0 < (claimedDropdownItems p.columns st.searchKey).length :=
      List.length_pos.mpr hne
    simp only [render, h, hitems]
    rw [if_pos hpos]
  · intro he
    simp only [render, h, hitems, he]
    rw [if_neg (by simp)]

/-- Witness for C6 at a concrete columns list and state. -/
theorem render_dropdown_items_exact_witness :
    wProps.columns.find? (fun col => col.key == wState.searchKey)
        = some ⟨"name", "Name", true⟩ ∧
      claimedDropdownItems wProps.columns wState.searchKey ≠ [] ∧
      render wProps wState
        = some (.dropdown false "Name" ["Description"]) := by
  refine ⟨by decide, by decide, ?_⟩
  exact (render_dropdown_items_exact wProps wState ⟨"name", "Name", true⟩
    (by decide)).1 (by decide)

/-- C7: submit performs no validation on the typed text: for every value,
the empty string included, the callback is invoked with that value rather
than the submission being rejected. -/
theorem handleSearch_accepts_every_value (cols : List Column)
    (f : String → String → Unit) (sck : String) (st : SearchState)
    (v : String) :
    ∃ st2 : SearchState,
      handleSearch ⟨cols, some f, sck⟩ { st with searchValue := v } =
        some ([(st.searchKey ++ "__icontains", v)], st2) :=
  ⟨_, rfl⟩

/-- C8: the text-input change handler stores the typed string unchanged and
modifies no other state field. -/
theorem handleSearchInputChange_tracks_text (v : String) (st : SearchState) :
    (handleSearchInputChange v st).searchValue = v ∧
      (handleSearchInputChange v st).searchKey = st.searchKey ∧
      (handleSearchInputChange v st).isSearchDropdownOpen
        = st.isSearchDropdownOpen :=
  ⟨rfl, rfl, rfl⟩

/-- C9: the component state is exactly the triple of dropdown flag, search
key and search value (the projection to that triple is a bijection), and
every operation yields a state made of just those three fields. -/
theorem state_is_exactly_three_fields :
    (Function.Bijective fun s : SearchState =>
      (s.isSearchDropdownOpen, s.searchKey, s.searchValue)) ∧
      ∀ (p : Props) (st : SearchState) (op : Op) (st2 : SearchState),
        step p st op = some st2 →
          ∃ (b : Bool) (k v : String), st2 = ⟨b, k, v⟩ := by
  refine ⟨⟨?_, ?_⟩, ?_⟩
  · intro a b h
    cases a; cases b
    simpa using h
  · intro x
    exact ⟨⟨x.1, x.2.1, x.2.2⟩, rfl⟩
  · intro p st op st2 _
    exact ⟨st2.isSearchDropdownOpen, st2.searchKey, st2.searchValue, rfl⟩

/-- Witness for C9 at a concrete operation. -/
theorem state_is_exactly_three_fields_witness :
    step wProps wState (Op.searchInputChange "x") = some ⟨false, "name", "x"⟩ ∧
      ∃ (b : Bool) (k v : String), (⟨false, "name", "x"⟩ : SearchState) = ⟨b, k, v⟩ :=
  ⟨rfl, state_is_exactly_three_fields.2 wProps wState
    (Op.searchInputChange "x") ⟨false, "name", "x"⟩ rfl⟩

end AwxSearch
